import Mathlib

/-!
Verification of the PDF processing service (services/pdf-processor/main.py).

The embedding models Python strings as lists of characters.  A parsed PDF is
a `Pdf`: an optional metadata record plus the list of per-page extraction
outcomes (`page.extract_text()` either returns text or raises).  The byte
stream handed to `PyPDF2.PdfReader` is modelled by `ParseResult`: either it
parses to a `Pdf` or the reader raises with some message.
-/

namespace PdfProc

/-- ASCII whitespace as recognized by Python `str.split` and `str.strip`:
space, tab, newline, carriage return, vertical tab, form feed. -/
def pyIsSpace (c : Char) : Bool :=
  c == ' ' || c == '\t' || c == '\n' || c == '\r' || c == '\x0b' || c == '\x0c'

/-- The characters of a string literal; Python strings are modelled as lists
of characters. -/
def chars (s : String) : List Char := s.data

/-- Python `s.strip()`: remove trailing, then leading, whitespace (the two
sides are independent, so the order does not matter). -/
def pyStrip (s : List Char) : List Char :=
  ((s.reverse.dropWhile pyIsSpace).reverse).dropWhile pyIsSpace

/-- Python `s.split()` with no separator: the maximal runs of non-whitespace
characters, in order; leading, trailing and repeated whitespace produce no
empty pieces. -/
def pyWords (s : List Char) : List (List Char) :=
  (s.splitOnP pyIsSpace).filter (fun t => !t.isEmpty)

/-- Python `s.lower()`, restricted to ASCII. -/
def pyLower (s : List Char) : List Char := s.map Char.toLower

/-- Python `text.split(sep)` for the two-character separator of line 175
(two newlines): split at each leftmost, non-overlapping occurrence, keeping
empty pieces. -/
def splitOnDoubleNewline : List Char → List (List Char)
  | [] => [[]]
  | '\n' :: '\n' :: cs => [] :: splitOnDoubleNewline cs
  | c :: cs =>
    match splitOnDoubleNewline cs with
    | [] => [[c]]
    | t :: ts => (c :: t) :: ts

/-- Outcome of `page.extract_text()` for one page (line 61): the extracted
text, or the message `str(e)` of the exception it raised. -/
inductive PageExtract where
  | ok (text : List Char)
  | err (msg : List Char)
deriving DecidableEq

/-- The document information object of the PDF.  Each field is `none` when
the corresponding attribute is `None` in the PDF.  The two date fields hold
the `str()` rendering of the date value when present. -/
structure PdfMetadata where
  title : Option (List Char)
  author : Option (List Char)
  subject : Option (List Char)
  creator : Option (List Char)
  producer : Option (List Char)
  creation_date : Option (List Char)
  modification_date : Option (List Char)
deriving DecidableEq

/-- A successfully parsed PDF: optional metadata (`none` when
`pdf_reader.metadata` is absent or falsy) and the pages in order. -/
structure Pdf where
  meta : Option PdfMetadata
  pages : List PageExtract
deriving DecidableEq

/-- One entry of the sections list (lines 65-71 and 74-81 of main.py).
`error` is the `str(e)` of the page-level exception when extraction failed,
`none` otherwise. -/
structure Section where
  type : List Char
  page_number : Nat
  content : List Char
  word_count : Nat
  char_count : Nat
  error : Option (List Char)
deriving DecidableEq

/-- Metadata extraction (lines 43-53): the dict starts empty and stays empty
when `pdf_reader.metadata` is absent or falsy; otherwise it holds the seven
fields, each None-coalesced to the empty string.  Date fields already hold
their `str()` rendering, so only the None-coalescing remains to model. -/
def metadataDict : Option PdfMetadata → List (List Char × List Char)
  | none => []
  | some m =>
    [(chars "title", m.title.getD []),
     (chars "author", m.author.getD []),
     (chars "subject", m.subject.getD []),
     (chars "creator", m.creator.getD []),
     (chars "producer", m.producer.getD []),
     (chars "creation_date", m.creation_date.getD []),
     (chars "modification_date", m.modification_date.getD [])]

/-- The Section appended for the page with 1-based number `n` (lines 65-71 on
success, 74-81 on failure).  On success the content is `page_text.strip()`,
the word count is `len(page_text.split())`, and the char count is
`len(page_text)` - the length of the raw, untrimmed page text. -/
def sectionOfPage (n : Nat) : PageExtract → Section
  | .ok page_text =>
    { type := chars "page", page_number := n, content := pyStrip page_text,
      word_count := (pyWords page_text).length, char_count := page_text.length,
      error := none }
  | .err e =>
    { type := chars "page", page_number := n,
      content := chars "[Error extracting text from this page]",
      word_count := 0, char_count := 0, error := some e }

/-- The page loop of `extract_text_from_pdf` (lines 59-81), carrying its two
accumulators `full_text` and `sections`; `page_num` is the 0-based index from
`enumerate`.  On success the raw page text plus a double newline is appended
to `full_text`; on failure `full_text` is unchanged, an error Section is
appended, and the loop continues with the next page. -/
def pageLoop (page_num : Nat) (full_text : List Char) (secs : List Section) :
    List PageExtract → List Char × List Section
  | [] => (full_text, secs)
  | page :: rest =>
    match page with
    | .ok page_text =>
        pageLoop (page_num + 1) (full_text ++ page_text ++ chars "\n\n")
          (secs ++ [sectionOfPage (page_num + 1) (.ok page_text)]) rest
    | .err e =>
        pageLoop (page_num + 1) full_text
          (secs ++ [sectionOfPage (page_num + 1) (.err e)]) rest

/-- The dict returned by `extract_text_from_pdf` (lines 83-89). -/
structure ExtractionResult where
  text_content : List Char
  page_count : Nat
  word_count : Nat
  metadata : List (List Char × List Char)
  sections : List Section
deriving DecidableEq

/-- `extract_text_from_pdf` (lines 36-89) on an already-parsed PDF: run the
page loop, then return the stripped full text, the total page count, the
whitespace-token count of the raw accumulated full text, the metadata dict
and the sections list. -/
def extract_text_from_pdf (pdf : Pdf) : ExtractionResult :=
  { text_content := pyStrip (pageLoop 0 [] [] pdf.pages).1
    page_count := pdf.pages.length
    word_count := (pyWords (pageLoop 0 [] [] pdf.pages).1).length
    metadata := metadataDict pdf.meta
    sections := (pageLoop 0 [] [] pdf.pages).2 }

/-- The full-text accumulator produced by the page loop, as a function of the
pages alone (the loop threads it left to right; concatenation is associative,
so the right-to-left recursion below builds the same list). -/
def full_text_acc : List PageExtract → List Char
  | [] => []
  | .ok t :: ps => t ++ chars "\n\n" ++ full_text_acc ps
  | .err _ :: ps => full_text_acc ps

/-- The sections list produced by the page loop when the next page has
1-based number `n`. -/
def sections_from (n : Nat) : List PageExtract → List Section
  | [] => []
  | p :: ps => sectionOfPage n p :: sections_from (n + 1) ps

/-- Outcome of opening the uploaded byte stream with `PyPDF2.PdfReader`
(lines 39-40): a parsed `Pdf`, or the message `str(e)` of the exception the
reader raised on an unparsable container. -/
inductive ParseResult where
  | ok (pdf : Pdf)
  | parseError (msg : List Char)
deriving DecidableEq

/-- The result of a handler call: a value, or a raised `HTTPException` with
its status code and detail string. -/
inductive HttpResult (α : Type) where
  | ok (value : α)
  | error (status : Nat) (detail : List Char)
deriving DecidableEq

/-- `extract_text_from_pdf` together with its surrounding try/except
(lines 38 and 91-92): a container-level parse failure becomes
`HTTPException(400, "Failed to extract text from PDF: " + str(e))`. -/
def extract_text_from_pdf_http : ParseResult → HttpResult ExtractionResult
  | .ok pdf => .ok (extract_text_from_pdf pdf)
  | .parseError e => .error 400 (chars "Failed to extract text from PDF: " ++ e)

/-- `str()` of a fastapi/starlette `HTTPException`, as interpolated by the
endpoint at line 158: the status code, a colon and a space, then the detail. -/
def httpExceptionStr (status : Nat) (detail : List Char) : List Char :=
  chars (toString status) ++ chars ": " ++ detail

/-- The response dict of the /extract-text endpoint (lines 144-152).
`document_id` is time-derived boundary plumbing and is omitted. -/
structure ExtractResponse where
  filename : List Char
  text_content : List Char
  page_count : Nat
  word_count : Nat
  metadata : List (List Char × List Char)
  sections : List Section
deriving DecidableEq

/-- The /extract-text endpoint (lines 116-158).  The temporary-file plumbing
is an I/O boundary and omitted.  The filename check of line 124 rejects
non-.pdf uploads with a 400.  The catch-all at line 154 intercepts every
`Exception` raised inside the try block - including the `HTTPException(400)`
raised by `extract_text_from_pdf`, because fastapi's `HTTPException` is a
subclass of `Exception` - and re-raises
`HTTPException(500, "Processing failed: " + str(e))`. -/
def extract_text (filename : List Char) (input : ParseResult) :
    HttpResult ExtractResponse :=
  if !(chars ".pdf").isSuffixOf (pyLower filename) then
    .error 400 (chars "Only PDF files are supported")
  else
    match extract_text_from_pdf_http input with
    | .ok r =>
        .ok { filename := filename, text_content := r.text_content,
              page_count := r.page_count, word_count := r.word_count,
              metadata := r.metadata, sections := r.sections }
    | .error s d =>
        .error 500 (chars "Processing failed: " ++ httpExceptionStr s d)

/-- `basic_stats` of the analysis response (lines 181-187). -/
structure BasicStats where
  page_count : Nat
  word_count : Nat
  sentence_count : Nat
  paragraph_count : Nat
  avg_words_per_page : Rat
deriving DecidableEq

/-- The analysis response (lines 178-192).  `document_id`, `filename` and
`analysis_timestamp` are boundary data and omitted. -/
structure AnalysisResult where
  basic_stats : BasicStats
  text_content : List Char
  metadata : List (List Char × List Char)
  sections : List Section
deriving DecidableEq

/-- Line 174: the pieces of the text split on the literal dot character,
each stripped, keeping only those that are non-empty after stripping. -/
def sentencesOf (text : List Char) : List (List Char) :=
  ((text.splitOn '.').map pyStrip).filter (fun s => !s.isEmpty)

/-- Line 175: the pieces of the text split on a double newline, each
stripped, keeping only those that are non-empty after stripping. -/
def paragraphsOf (text : List Char) : List (List Char) :=
  ((splitOnDoubleNewline text).map pyStrip).filter (fun s => !s.isEmpty)

/-- `analyze_document` (lines 160-194) applied to a successful extraction
response: the statistics of lines 181-187 over the extracted text.  Python's
float division `word_count / page_count` is modelled as exact division over
`Rat`; the guard `if page_count > 0 else 0` is as in line 186. -/
def analyze_document (r : ExtractResponse) : AnalysisResult :=
  { basic_stats :=
      { page_count := r.page_count
        word_count := r.word_count
        sentence_count := (sentencesOf r.text_content).length
        paragraph_count := (paragraphsOf r.text_content).length
        avg_words_per_page :=
          if r.page_count > 0 then (r.word_count : Rat) / (r.page_count : Rat)
          else 0 }
    text_content := r.text_content
    metadata := r.metadata
    sections := r.sections }

/-- Spec-side comparator for C6, following the spec wording: each page's
text joined by a blank line (a double newline). -/
def joined_by_blank_line : List (List Char) → List Char
  | [] => []
  | [t] => t
  | t :: ts => t ++ chars "\n\n" ++ joined_by_blank_line ts

/-- Spec-side comparator for C8, following the spec wording: the number of
pieces obtained by splitting the text on the literal dot character that are
non-empty after trimming whitespace. -/
def spec_sentence_count (text : List Char) : Nat :=
  (text.splitOn '.').countP (fun s => !(pyStrip s).isEmpty)

/-- Spec-side comparator for C8, following the spec wording: the number of
pieces obtained by splitting the text on double-newline sequences that are
non-empty after trimming whitespace. -/
def spec_paragraph_count (text : List Char) : Nat :=
  (splitOnDoubleNewline text).countP (fun s => !(pyStrip s).isEmpty)

/-! ### Facts about the tokenizer and the stripper -/

theorem chars_nn : chars "\n\n" = ['\n', '\n'] := rfl

theorem nl_space : pyIsSpace '\n' = true := rfl

theorem splitOnP_append_sep {α : Type} (p : α → Bool) {c : α} (hc : p c = true)
    (xs ys : List α) :
    (xs ++ c :: ys).splitOnP p = xs.splitOnP p ++ ys.splitOnP p := by
  induction xs with
  | nil => simp [List.splitOnP_cons, hc]
  | cons a as ih =>
    by_cases ha : p a
    · simp [List.splitOnP_cons, ha, ih]
    · cases hsp : as.splitOnP p with
      | nil => exact absurd hsp (List.splitOnP_ne_nil p as)
      | cons h t =>
        simp [List.splitOnP_cons, ha, ih, hsp, List.modifyHead]

theorem pyWords_nil : pyWords [] = [] := rfl

theorem pyWords_sep_cons {c : Char} (hc : pyIsSpace c = true) (ys : List Char) :
    pyWords (c :: ys) = pyWords ys := by
  simp [pyWords, List.splitOnP_cons, hc]

theorem pyWords_append_sep {c : Char} (hc : pyIsSpace c = true) (xs : List Char) :
    pyWords (xs ++ [c]) = pyWords xs := by
  have h := splitOnP_append_sep pyIsSpace hc xs []
  simp [pyWords, h, List.filter_append]

theorem pyWords_append_sep_middle {c : Char} (hc : pyIsSpace c = true)
    (xs ys : List Char) : pyWords (xs ++ c :: ys) = pyWords xs ++ pyWords ys := by
  simp [pyWords, splitOnP_append_sep pyIsSpace hc, List.filter_append]

theorem pyWords_dropWhile (s : List Char) :
    pyWords (s.dropWhile pyIsSpace) = pyWords s := by
  induction s with
  | nil => rfl
  | cons a as ih =>
    by_cases ha : pyIsSpace a
    · rw [List.dropWhile_cons_of_pos ha, ih, pyWords_sep_cons ha]
    · rw [List.dropWhile_cons_of_neg ha]

theorem pyWords_rstrip (s : List Char) :
    pyWords ((s.reverse.dropWhile pyIsSpace).reverse) = pyWords s := by
  induction s using List.reverseRecOn with
  | nil => rfl
  | append_singleton xs x ih =>
    by_cases hx : pyIsSpace x
    · rw [List.reverse_append]
      simp only [List.reverse_cons, List.reverse_nil, List.nil_append,
        List.singleton_append, List.dropWhile_cons_of_pos hx]
      rw [ih, pyWords_append_sep hx]
    · rw [List.reverse_append]
      simp only [List.reverse_cons, List.reverse_nil, List.nil_append,
        List.singleton_append, List.dropWhile_cons_of_neg hx]
      simp [List.reverse_cons]

theorem pyWords_pyStrip (s : List Char) : pyWords (pyStrip s) = pyWords s := by
  rw [pyStrip, pyWords_dropWhile, pyWords_rstrip]

theorem pyStrip_append_sep {c : Char} (hc : pyIsSpace c = true) (s : List Char) :
    pyStrip (s ++ [c]) = pyStrip s := by
  simp [pyStrip, List.reverse_append, List.dropWhile_cons_of_pos hc]

/-! ### The page loop and its two accumulators -/

theorem pageLoop_eq (ps : List PageExtract) :
    ∀ (n : Nat) (ft : List Char) (secs : List Section),
      pageLoop n ft secs ps
        = (ft ++ full_text_acc ps, secs ++ sections_from (n + 1) ps) := by
  induction ps with
  | nil => intro n ft secs; simp [pageLoop, full_text_acc, sections_from]
  | cons p ps ih =>
    intro n ft secs
    cases p with
    | ok t => simp [pageLoop, full_text_acc, sections_from, ih]
    | err e => simp [pageLoop, full_text_acc, sections_from, ih]

theorem extract_sections_eq (pdf : Pdf) :
    (extract_text_from_pdf pdf).sections = sections_from 1 pdf.pages := by
  simp [extract_text_from_pdf, pageLoop_eq]

theorem extract_text_content_eq (pdf : Pdf) :
    (extract_text_from_pdf pdf).text_content = pyStrip (full_text_acc pdf.pages) := by
  simp [extract_text_from_pdf, pageLoop_eq]

theorem extract_word_count_eq (pdf : Pdf) :
    (extract_text_from_pdf pdf).word_count
      = (pyWords (full_text_acc pdf.pages)).length := by
  simp [extract_text_from_pdf, pageLoop_eq]

theorem extract_page_count_eq (pdf : Pdf) :
    (extract_text_from_pdf pdf).page_count = pdf.pages.length := rfl

theorem sections_from_length (ps : List PageExtract) :
    ∀ n, (sections_from n ps).length = ps.length := by
  induction ps with
  | nil => intro n; rfl
  | cons p ps ih => intro n; simp [sections_from, ih]

theorem sections_from_getElem (ps : List PageExtract) :
    ∀ (n j : Nat), (sections_from n ps)[j]? = ps[j]?.map (sectionOfPage (n + j)) := by
  induction ps with
  | nil => intro n j; simp [sections_from]
  | cons p ps ih =>
    intro n j
    cases j with
    | zero => simp [sections_from]
    | succ j =>
      have hn : n + 1 + j = n + (j + 1) := by omega
      simp [sections_from, ih, hn]

theorem full_text_acc_append (xs ys : List PageExtract) :
    full_text_acc (xs ++ ys) = full_text_acc xs ++ full_text_acc ys := by
  induction xs with
  | nil => simp [full_text_acc]
  | cons p ps ih => cases p <;> simp [full_text_acc, ih]

theorem full_text_acc_eraseIdx_err (ps : List PageExtract) :
    ∀ (k : Nat) (msg : List Char), ps[k]? = some (.err msg) →
      full_text_acc (ps.eraseIdx k) = full_text_acc ps := by
  induction ps with
  | nil => intro k msg h; simp at h
  | cons p ps ih =>
    intro k msg h
    cases k with
    | zero =>
      simp at h
      subst h
      simp [full_text_acc]
    | succ k =>
      simp at h
      cases p <;> simp [full_text_acc, ih k msg h]

theorem words_full_text_acc (ps : List PageExtract) :
    ∀ n, (pyWords (full_text_acc ps)).length
      = ((sections_from n ps).map Section.word_count).sum := by
  induction ps with
  | nil => intro n; rfl
  | cons p ps ih =>
    intro n
    cases p with
    | ok t =>
      have hacc : full_text_acc (.ok t :: ps)
          = t ++ '\n' :: '\n' :: full_text_acc ps := by
        simp [full_text_acc, chars_nn]
      rw [hacc, pyWords_append_sep_middle nl_space, pyWords_sep_cons nl_space]
      simp only [sections_from, sectionOfPage, List.map_cons, List.sum_cons,
        List.length_append]
      rw [ih (n + 1)]
    | err e =>
      simp only [full_text_acc, sections_from, sectionOfPage, List.map_cons,
        List.sum_cons, Nat.zero_add]
      exact ih (n + 1)

theorem pyStrip_append_nn (s : List Char) :
    pyStrip (s ++ chars "\n\n") = pyStrip s := by
  have h1 : s ++ chars "\n\n" = (s ++ ['\n']) ++ ['\n'] := by simp [chars_nn]
  rw [h1, pyStrip_append_sep nl_space, pyStrip_append_sep nl_space]

theorem full_text_acc_ok_cons (ts : List (List Char)) :
    ∀ t, full_text_acc ((t :: ts).map PageExtract.ok)
      = joined_by_blank_line (t :: ts) ++ chars "\n\n" := by
  induction ts with
  | nil => intro t; simp [full_text_acc, joined_by_blank_line]
  | cons t' ts ih =>
    intro t
    simp only [List.map_cons, full_text_acc] at ih ⊢
    rw [ih t']
    simp [joined_by_blank_line, List.append_assoc]

theorem length_filter_strip (l : List (List Char)) :
    ((l.map pyStrip).filter (fun s => !s.isEmpty)).length
      = l.countP (fun s => !(pyStrip s).isEmpty) := by
  induction l with
  | nil => rfl
  | cons a l ih =>
    by_cases ha : (pyStrip a).isEmpty
      <;> simp [List.filter, List.countP_cons, ha, ih]

/-! ### The claims -/

/-- C1: on a byte stream that cannot be parsed as a PDF container,
`extract_text_from_pdf` fails with an HTTPException(400) (the InvalidDocument
error) and produces no Document; but the /extract-text endpoint's catch-all
converts that 400 into a 500 "Processing failed" response, so the caller
observes a server-side failure, not the claimed client-side HTTP 400. -/
theorem C1_parse_error_reaches_caller_as_500 (filename e : List Char)
    (hf : (chars ".pdf").isSuffixOf (pyLower filename) = true) :
    extract_text_from_pdf_http (.parseError e)
        = .error 400 (chars "Failed to extract text from PDF: " ++ e)
      ∧ extract_text filename (.parseError e)
        = .error 500 (chars "Processing failed: "
            ++ httpExceptionStr 400 (chars "Failed to extract text from PDF: " ++ e)) := by
  refine ⟨rfl, ?_⟩
  simp [extract_text, hf, extract_text_from_pdf_http]

/-- Witness for C1 at the concrete upload "doc.pdf" whose bytes fail to
parse with message "x". -/
theorem C1_parse_error_reaches_caller_as_500_witness :
    extract_text_from_pdf_http (.parseError (chars "x"))
        = .error 400 (chars "Failed to extract text from PDF: " ++ chars "x")
      ∧ extract_text (chars "doc.pdf") (.parseError (chars "x"))
        = .error 500 (chars "Processing failed: "
            ++ httpExceptionStr 400 (chars "Failed to extract text from PDF: " ++ chars "x")) :=
  C1_parse_error_reaches_caller_as_500 (chars "doc.pdf") (chars "x") (by decide)

/-- C2: when page k fails with message msg, the extraction records section k
as the placeholder Section with zero counts and the embedded error message,
appends nothing to the full-text accumulator for that page (removing the
failed page leaves the accumulator unchanged), every other section j is
still determined by its own page alone, processing reaches the end (the
result is total by construction), and page_count still counts page k. -/
theorem C2_failed_page_is_isolated (pdf : Pdf) (k j : Nat) (msg : List Char)
    (h : pdf.pages[k]? = some (.err msg)) (_hj : j ≠ k) :
    (extract_text_from_pdf pdf).sections[k]? = some
        { type := chars "page", page_number := k + 1,
          content := chars "[Error extracting text from this page]",
          word_count := 0, char_count := 0, error := some msg }
      ∧ full_text_acc (pdf.pages.eraseIdx k) = full_text_acc pdf.pages
      ∧ (extract_text_from_pdf pdf).sections[j]?
          = (pdf.pages[j]?).map (sectionOfPage (j + 1))
      ∧ (extract_text_from_pdf pdf).page_count = pdf.pages.length
      ∧ k < (extract_text_from_pdf pdf).page_count := by
  refine ⟨?_, full_text_acc_eraseIdx_err _ k msg h, ?_, rfl, ?_⟩
  · rw [extract_sections_eq, sections_from_getElem, Nat.add_comm 1 k, h]
    rfl
  · rw [extract_sections_eq, sections_from_getElem, Nat.add_comm 1 j]
  · rw [extract_page_count_eq]
    by_contra hk
    push_neg at hk
    rw [List.getElem?_eq_none hk] at h
    exact Option.noConfusion h

/-- Witness for C2 at a concrete two-page document whose second page fails
with message "boom". -/
theorem C2_failed_page_is_isolated_witness :
    (extract_text_from_pdf
        ⟨none, [.ok (chars "one two"), .err (chars "boom")]⟩).sections[1]? = some
        { type := chars "page", page_number := 2,
          content := chars "[Error extracting text from this page]",
          word_count := 0, char_count := 0, error := some (chars "boom") }
      ∧ full_text_acc
            ([PageExtract.ok (chars "one two"), .err (chars "boom")].eraseIdx 1)
          = full_text_acc [PageExtract.ok (chars "one two"), .err (chars "boom")]
      ∧ (extract_text_from_pdf
            ⟨none, [.ok (chars "one two"), .err (chars "boom")]⟩).sections[0]?
          = ([PageExtract.ok (chars "one two"),
              PageExtract.err (chars "boom")][0]?).map (sectionOfPage 1)
      ∧ (extract_text_from_pdf
            ⟨none, [.ok (chars "one two"), .err (chars "boom")]⟩).page_count = 2
      ∧ 1 < (extract_text_from_pdf
            ⟨none, [.ok (chars "one two"), .err (chars "boom")]⟩).page_count :=
  C2_failed_page_is_isolated
    ⟨none, [.ok (chars "one two"), .err (chars "boom")]⟩ 1 0 (chars "boom")
    rfl (by decide)

/-- C3 counterexample: for the single page with raw text " a " the recorded
char_count is 3, the length of the raw page text, while the trimmed content
"a" has length 1 - refuting that char_count equals the length of the trimmed
string. -/
theorem C3_char_count_is_raw_counterexample :
    ((extract_text_from_pdf ⟨none, [.ok (chars " a ")]⟩).sections.map
        Section.char_count) = [3]
      ∧ (pyStrip (chars " a ")).length = 1
      ∧ ((extract_text_from_pdf ⟨none, [.ok (chars " a ")]⟩).sections.map
          Section.content) = [chars "a"] :=
  ⟨rfl, rfl, rfl⟩

/-- C3 amended: on a successful page k with raw text t, the recorded Section
has content equal to the trimmed text, word_count equal to the number of
whitespace-delimited tokens, and char_count equal to the length of the RAW
(untrimmed) page text; and the page contributes its raw text plus a
double-newline separator to the full-text accumulator, in position. -/
theorem C3_success_section (pdf : Pdf) (k : Nat) (t : List Char)
    (h : pdf.pages[k]? = some (.ok t)) :
    (extract_text_from_pdf pdf).sections[k]? = some
        { type := chars "page", page_number := k + 1, content := pyStrip t,
          word_count := (pyWords t).length, char_count := t.length,
          error := none }
      ∧ full_text_acc pdf.pages
        = full_text_acc (pdf.pages.take k) ++ t ++ chars "\n\n"
            ++ full_text_acc (pdf.pages.drop (k + 1)) := by
  have hk : k < pdf.pages.length := by
    by_contra hk
    push_neg at hk
    rw [List.getElem?_eq_none hk] at h
    exact Option.noConfusion h
  constructor
  · rw [extract_sections_eq, sections_from_getElem, Nat.add_comm 1 k, h]
    rfl
  · have hget : pdf.pages[k] = .ok t := by
      have h2 := List.getElem?_eq_getElem hk
      rw [h2] at h
      exact Option.some.inj h
    conv_lhs => rw [← List.take_append_drop k pdf.pages,
      List.drop_eq_getElem_cons hk, hget]
    rw [full_text_acc_append]
    simp [full_text_acc, List.append_assoc]

/-- Witness for C3 (amended) at the concrete one-page document with raw
page text " a ". -/
theorem C3_success_section_witness :
    (extract_text_from_pdf ⟨none, [.ok (chars " a ")]⟩).sections[0]? = some
        { type := chars "page", page_number := 1, content := pyStrip (chars " a "),
          word_count := (pyWords (chars " a ")).length,
          char_count := (chars " a ").length, error := none }
      ∧ full_text_acc [PageExtract.ok (chars " a ")]
        = full_text_acc ([PageExtract.ok (chars " a ")].take 0)
            ++ chars " a " ++ chars "\n\n"
            ++ full_text_acc ([PageExtract.ok (chars " a ")].drop 1) :=
  C3_success_section ⟨none, [.ok (chars " a ")]⟩ 0 (chars " a ") rfl

/-- C4: the aggregate word_count of every extraction result equals the
number of whitespace-delimited tokens of the trimmed full-text accumulator,
and the returned text_content is the trimmed accumulator. -/
theorem C4_word_count_of_trimmed_full_text (pdf : Pdf) :
    (extract_text_from_pdf pdf).word_count
        = (pyWords (pyStrip (full_text_acc pdf.pages))).length
      ∧ (extract_text_from_pdf pdf).text_content
        = pyStrip (full_text_acc pdf.pages) :=
  ⟨by rw [extract_word_count_eq, pyWords_pyStrip], extract_text_content_eq pdf⟩

/-- C5: for every parsed PDF, the number of Sections in the extraction
result equals its page_count - one Section per page, including failed
pages. -/
theorem C5_section_count_eq_page_count (pdf : Pdf) :
    (extract_text_from_pdf pdf).sections.length
      = (extract_text_from_pdf pdf).page_count := by
  rw [extract_sections_eq, extract_page_count_eq, sections_from_length]

/-- C6: when every page extracts successfully, the returned text_content
equals the trimmed concatenation of the pages' texts joined by a blank
line. -/
theorem C6_all_pages_ok_full_text (pdf : Pdf) (texts : List (List Char))
    (h : pdf.pages = texts.map PageExtract.ok) :
    (extract_text_from_pdf pdf).text_content
      = pyStrip (joined_by_blank_line texts) := by
  rw [extract_text_content_eq, h]
  cases texts with
  | nil => rfl
  | cons t ts => rw [full_text_acc_ok_cons, pyStrip_append_nn]

/-- Witness for C6 at a concrete two-page document where both pages extract
successfully. -/
theorem C6_all_pages_ok_full_text_witness :
    (extract_text_from_pdf
        ⟨none, [.ok (chars "Hello"), .ok (chars "world ")]⟩).text_content
      = pyStrip (joined_by_blank_line [chars "Hello", chars "world "]) :=
  C6_all_pages_ok_full_text ⟨none, [.ok (chars "Hello"), .ok (chars "world ")]⟩
    [chars "Hello", chars "world "] rfl

/-- C7 counterexample: a PDF with no metadata object yields an EMPTY
metadata mapping - in particular it contains no title field - not a mapping
of seven empty-string fields as the claim requires. -/
theorem C7_no_metadata_object_counterexample :
    (extract_text_from_pdf ⟨none, []⟩).metadata = []
      ∧ (extract_text_from_pdf ⟨none, []⟩).metadata.lookup (chars "title")
          = none :=
  ⟨rfl, rfl⟩

/-- C7 amended: when the PDF has a (truthy) metadata object, the returned
metadata holds exactly the seven fields, in order, each missing/None field
defaulting to the empty string and the date fields rendered as their str()
representation; when the PDF has no metadata object, the returned metadata
is the empty mapping. -/
theorem C7_metadata_fields (pdf : Pdf) :
    (extract_text_from_pdf pdf).metadata
      = match pdf.meta with
        | none => []
        | some m =>
          [(chars "title", m.title.getD []),
           (chars "author", m.author.getD []),
           (chars "subject", m.subject.getD []),
           (chars "creator", m.creator.getD []),
           (chars "producer", m.producer.getD []),
           (chars "creation_date", m.creation_date.getD []),
           (chars "modification_date", m.modification_date.getD [])] := by
  obtain ⟨meta, pages⟩ := pdf
  cases meta <;> rfl

/-- C8: the analyzer's sentence_count counts the dot-separated pieces of the
text that are non-empty after trimming, and its paragraph_count counts the
double-newline-separated pieces that are non-empty after trimming. -/
theorem C8_sentence_and_paragraph_count (r : ExtractResponse) :
    (analyze_document r).basic_stats.sentence_count
        = spec_sentence_count r.text_content
      ∧ (analyze_document r).basic_stats.paragraph_count
        = spec_paragraph_count r.text_content := by
  constructor
  · show (sentencesOf r.text_content).length = _
    rw [sentencesOf, spec_sentence_count, length_filter_strip]
  · show (paragraphsOf r.text_content).length = _
    rw [paragraphsOf, spec_paragraph_count, length_filter_strip]

/-- C9: avg_words_per_page is 0 when page_count is 0 (the division is
guarded, analysis is total), and when page_count is positive it is exactly
word_count divided by page_count (characterized multiplicatively over
Rat). -/
theorem C9_avg_words_per_page (r : ExtractResponse) :
    ((analyze_document r).basic_stats.page_count = 0 →
        (analyze_document r).basic_stats.avg_words_per_page = 0)
      ∧ (0 < (analyze_document r).basic_stats.page_count →
          (analyze_document r).basic_stats.avg_words_per_page
              * ((analyze_document r).basic_stats.page_count : Rat)
            = ((analyze_document r).basic_stats.word_count : Rat)) := by
  constructor
  · intro h
    have h0 : r.page_count = 0 := h
    simp [analyze_document, h0]
  · intro h
    have h0 : 0 < r.page_count := h
    have hne : ((r.page_count : Rat)) ≠ 0 := by
      exact_mod_cast Nat.pos_iff_ne_zero.mp h0
    simp only [analyze_document, gt_iff_lt, h0, if_true]
    exact div_mul_cancel₀ _ hne

/-- Witness for C9 at a concrete extraction response with 2 pages and 5
words. -/
theorem C9_avg_words_per_page_witness :
    (analyze_document
        ⟨chars "a.pdf", chars "x", 2, 5, [], []⟩).basic_stats.avg_words_per_page
        * ((analyze_document
            ⟨chars "a.pdf", chars "x", 2, 5, [], []⟩).basic_stats.page_count : Rat)
      = ((analyze_document
          ⟨chars "a.pdf", chars "x", 2, 5, [], []⟩).basic_stats.word_count : Rat) :=
  (C9_avg_words_per_page ⟨chars "a.pdf", chars "x", 2, 5, [], []⟩).2 (by decide)

/-- C10: the aggregate word_count equals the sum of the per-Section
word_counts, for every parsed PDF - including documents with failed pages
and pages whose text has surrounding whitespace. -/
theorem C10_word_count_eq_sum_of_sections (pdf : Pdf) :
    (extract_text_from_pdf pdf).word_count
      = ((extract_text_from_pdf pdf).sections.map Section.word_count).sum := by
  rw [extract_word_count_eq, extract_sections_eq, words_full_text_acc]

end PdfProc
